import Mathlib

/-!
Shallow embedding of the monitoring core of `monitoring.py`
(classes `MetricsCollector` and `RequestLogger`).

Modelling conventions:
* Python floats become `ℚ` (exact rationals); `datetime` values become `ℚ`
  seconds on an absolute axis, so `timedelta(minutes=5)` is `300` and
  `now - r.timestamp` is rational subtraction.
* `round(x, n)` in Python rounds to `n` decimal digits with ties to even;
  `pyRound` reproduces that on `ℚ`.
* `int(td.total_seconds())` truncates toward zero (`ratTrunc`).
* `str(uptime).split('.')[0]` renders the uptime truncated below the
  second; we keep its information content as the floored number of
  seconds (`uptime_human : ℤ`), since no property depends on the
  rendering format itself.
* `deque(maxlen=cap)` becomes a list where appending beyond `cap` drops
  the oldest entries (`pushBounded`).
* The `defaultdict` of per-endpoint statistics becomes an association
  list keyed by the composite string `method ++ " " ++ endpoint`, updated
  in place at the first matching key and appended at the end for a fresh
  key (Python dicts keep insertion order).
* Log emission (`logger.info` / `logger.warning` / `logger.error`)
  becomes a returned list of `LogLine` values.
-/

/-- One request observation (Python dataclass `RequestMetrics`). -/
structure RequestMetrics where
  endpoint : String
  method : String
  status_code : ℤ
  response_time : ℚ
  timestamp : ℚ
  user_agent : Option String := none
  ip_address : Option String := none
  error_message : Option String := none
deriving Repr, DecidableEq

/-- One host-resource snapshot (Python dataclass `SystemMetrics`). -/
structure SystemMetrics where
  cpu_percent : ℚ
  memory_percent : ℚ
  memory_used_mb : ℚ
  memory_available_mb : ℚ
  disk_usage_percent : ℚ
  timestamp : ℚ
deriving Repr, DecidableEq

/-- Per-endpoint running aggregate: one value of the `endpoint_stats`
defaultdict in `MetricsCollector.__init__`. -/
structure EndpointStats where
  count : ℕ
  total_time : ℚ
  errors : ℕ
  last_called : Option ℚ
deriving Repr, DecidableEq

/-- The defaultdict default value: `\x7b'count': 0, 'total_time': 0, 'errors': 0,
'last_called': None\x7d`. -/
def EndpointStats.initial : EndpointStats :=
  { count := 0, total_time := 0, errors := 0, last_called := none }

/-- The state of a `MetricsCollector` instance. -/
structure CollectorState where
  max_requests : ℕ
  requests : List RequestMetrics
  system_metrics : List SystemMetrics
  endpoint_stats : List (String × EndpointStats)
  start_time : ℚ
deriving Repr, DecidableEq

/-- `MetricsCollector.__init__(max_requests)` at process start time `t0`.
The request buffer is `deque(maxlen=max_requests)`, the snapshot buffer
`deque(maxlen=100)`, the aggregate table empty. -/
def initState (max_requests : ℕ) (t0 : ℚ) : CollectorState :=
  { max_requests := max_requests
    requests := []
    system_metrics := []
    endpoint_stats := []
    start_time := t0 }

/-- Append to a `deque(maxlen=cap)`: the result keeps only the newest
`cap` entries (oldest dropped first). -/
def pushBounded {α : Type} (cap : ℕ) (buf : List α) (x : α) : List α :=
  let b := buf ++ [x]
  b.drop (b.length - cap)

/-- The composite dict key `f"\x7bmetrics.method\x7d \x7bmetrics.endpoint\x7d"`. -/
def endpointKey (method endpoint : String) : String :=
  method ++ " " ++ endpoint

/-- Read `endpoint_stats[k]` without materialising a missing key
(the read paths of `get_stats` never add keys). -/
def lookupTable : List (String × EndpointStats) → String → EndpointStats
  | [], _ => EndpointStats.initial
  | p :: rest, k => if p.1 = k then p.2 else lookupTable rest k

/-- Write path of the defaultdict: mutate the entry at `k` in place
(first occurrence) or materialise the default at the end and mutate it. -/
def updateTable (tbl : List (String × EndpointStats)) (k : String)
    (f : EndpointStats → EndpointStats) : List (String × EndpointStats) :=
  match tbl with
  | [] => [(k, f EndpointStats.initial)]
  | p :: rest => if p.1 = k then (p.1, f p.2) :: rest else p :: updateTable rest k f

/-- The in-place mutations `add_request` performs on one aggregate entry:
`count += 1`, `total_time += response_time`, `last_called = timestamp`,
and `errors += 1` iff `status_code >= 400`. -/
def bumpStats (m : RequestMetrics) (st : EndpointStats) : EndpointStats :=
  { count := st.count + 1
    total_time := st.total_time + m.response_time
    errors := if 400 ≤ m.status_code then st.errors + 1 else st.errors
    last_called := some m.timestamp }

/-- A line written to the log sink, tagged with its source site. -/
inductive LogLine : Type
  /-- `logger.info` in `add_request`, carrying method, endpoint,
  status code and response time. -/
  | requestInfo (method endpoint : String) (status_code : ℤ) (response_time : ℚ)
  /-- `logger.error` "Server error" in `log_request`. -/
  | serverError (method endpoint : String) (status_code : ℤ) (error_message : Option String)
  /-- `logger.warning` "Client error" in `log_request`. -/
  | clientError (method endpoint : String) (status_code : ℤ)
  /-- `logger.warning` "Slow request" in `log_request`. -/
  | slowRequest (method endpoint : String) (response_time : ℚ)
  /-- `logger.warning` "High CPU usage" in `add_system_metrics`. -/
  | highCpu (cpu_percent : ℚ)
  /-- `logger.warning` "High memory usage" in `add_system_metrics`. -/
  | highMemory (memory_percent : ℚ)
deriving Repr, DecidableEq

/-- The always-emitted informational line of the ingestion path. -/
def LogLine.isInfo : LogLine → Bool
  | .requestInfo _ _ _ _ => true
  | _ => false

/-- A classification-tagged line of `log_request` (server error, client
error or slow request). -/
def LogLine.isClassified : LogLine → Bool
  | .serverError _ _ _ _ => true
  | .clientError _ _ _ => true
  | .slowRequest _ _ _ => true
  | _ => false

/-- `MetricsCollector.add_request`: append to the bounded request buffer,
update the per-endpoint aggregate, and emit one informational log line. -/
def MetricsCollector.add_request (s : CollectorState) (m : RequestMetrics) :
    CollectorState × List LogLine :=
  ({ s with
      requests := pushBounded s.max_requests s.requests m
      endpoint_stats :=
        updateTable s.endpoint_stats (endpointKey m.method m.endpoint) (bumpStats m) },
   [LogLine.requestInfo m.method m.endpoint m.status_code m.response_time])

/-- `MetricsCollector.add_system_metrics`: append to the bounded snapshot
buffer (capacity 100) and warn on cpu or memory above 80. -/
def MetricsCollector.add_system_metrics (s : CollectorState) (m : SystemMetrics) :
    CollectorState × List LogLine :=
  ({ s with system_metrics := pushBounded 100 s.system_metrics m },
   (if m.cpu_percent > 80 then [LogLine.highCpu m.cpu_percent] else []) ++
   (if m.memory_percent > 80 then [LogLine.highMemory m.memory_percent] else []))

/-- Python `round(q, ·)` of a rational to an integer: nearest, ties to
the even integer. -/
def roundHalfEven (q : ℚ) : ℤ :=
  let f := ⌊q⌋
  let r := q - f
  if r < 1/2 then f
  else if 1/2 < r then f + 1
  else if f % 2 = 0 then f else f + 1

/-- Python `round(q, ndigits)` on rationals. -/
def pyRound (ndigits : ℕ) (q : ℚ) : ℚ :=
  let p : ℚ := (10 : ℚ) ^ ndigits
  (roundHalfEven (q * p) : ℚ) / p

/-- Python `int(q)`: truncation toward zero. -/
def ratTrunc (q : ℚ) : ℤ :=
  if 0 ≤ q then ⌊q⌋ else ⌈q⌉

/-- One entry of the `endpoints` summary mapping in `get_stats`. -/
structure EndpointSummary where
  calls : ℕ
  avg_response_time : ℚ
  error_rate : ℚ
  last_called : Option ℚ
deriving Repr, DecidableEq

/-- The dictionary returned by `MetricsCollector.get_stats`. -/
structure Stats where
  uptime_seconds : ℤ
  uptime_human : ℤ
  total_requests : ℕ
  recent_requests_5min : ℕ
  error_rate_percent : ℚ
  avg_response_time_ms : ℚ
  current_system : Option SystemMetrics
  endpoints : List (String × EndpointSummary)
  timestamp : ℚ
deriving Repr, DecidableEq

/-- `MetricsCollector.get_stats`, with `now = datetime.now()` made an
explicit argument. -/
def MetricsCollector.get_stats (s : CollectorState) (now : ℚ) : Stats :=
  let uptime := now - s.start_time
  let total_requests := s.requests.length
  let recent_requests := s.requests.filter (fun r => now - r.timestamp < 300)
  let error_requests := s.requests.filter (fun r => 400 ≤ r.status_code)
  let error_rate : ℚ :=
    if 0 < total_requests then (error_requests.length : ℚ) / (total_requests : ℚ) else 0
  let response_times := s.requests.map (fun r => r.response_time)
  let avg_response_time : ℚ :=
    if 0 < response_times.length then response_times.sum / (response_times.length : ℚ) else 0
  let current_system := s.system_metrics.getLast?
  let endpoint_summary : List (String × EndpointSummary) :=
    s.endpoint_stats.map (fun p =>
      let st := p.2
      let avg_time : ℚ := if 0 < st.count then st.total_time / (st.count : ℚ) else 0
      let error_rate_endpoint : ℚ :=
        if 0 < st.count then (st.errors : ℚ) / (st.count : ℚ) else 0
      (p.1,
       { calls := st.count
         avg_response_time := pyRound 3 avg_time
         error_rate := pyRound 2 (error_rate_endpoint * 100)
         last_called := st.last_called }))
  { uptime_seconds := ratTrunc uptime
    uptime_human := ⌊uptime⌋
    total_requests := total_requests
    recent_requests_5min := recent_requests.length
    error_rate_percent := pyRound 2 (error_rate * 100)
    avg_response_time_ms := pyRound 2 (avg_response_time * 1000)
    current_system := current_system
    endpoints := endpoint_summary
    timestamp := now }

/-- The tri-state verdict string of `get_health_status`. -/
inductive HealthStatus : Type
  | healthy
  | degraded
  | unhealthy
deriving Repr, DecidableEq

/-- The dictionary returned by `MetricsCollector.get_health_status`. -/
structure Health where
  status : HealthStatus
  issues : List String
  uptime : ℤ
  total_requests : ℕ
  timestamp : ℚ
deriving Repr, DecidableEq

/-- `MetricsCollector.get_health_status`: compute stats, collect the
threshold issues in order, classify by issue count. -/
def MetricsCollector.get_health_status (s : CollectorState) (now : ℚ) : Health :=
  let stats := MetricsCollector.get_stats s now
  let health_issues : List String :=
    (if stats.error_rate_percent > 10 then
      ["High error rate: " ++ toString stats.error_rate_percent ++ "%"] else []) ++
    (if stats.avg_response_time_ms > 5000 then
      ["Slow response time: " ++ toString stats.avg_response_time_ms ++ "ms"] else []) ++
    (match stats.current_system with
     | some cs =>
        (if cs.cpu_percent > 90 then
          ["High CPU: " ++ toString cs.cpu_percent ++ "%"] else []) ++
        (if cs.memory_percent > 90 then
          ["High memory: " ++ toString cs.memory_percent ++ "%"] else [])
     | none => [])
  let status :=
    if health_issues = [] then HealthStatus.healthy
    else if health_issues.length < 3 then HealthStatus.degraded
    else HealthStatus.unhealthy
  { status := status
    issues := health_issues
    uptime := stats.uptime_human
    total_requests := stats.total_requests
    timestamp := now }

/-- `get_stats` with its (absent) state effect made explicit: the method
only reads `self`, so the returned state is the input state. -/
def MetricsCollector.get_stats_effect (s : CollectorState) (now : ℚ) :
    Stats × CollectorState :=
  (MetricsCollector.get_stats s now, s)

/-- `get_health_status` with its (absent) state effect made explicit. -/
def MetricsCollector.get_health_status_effect (s : CollectorState) (now : ℚ) :
    Health × CollectorState :=
  (MetricsCollector.get_health_status s now, s)

/-- `RequestLogger.log_request`: build the sample at `observedAt = now`,
ingest it via `add_request`, then emit at most one classification line by
the `if / elif / elif` precedence chain. -/
def RequestLogger.log_request (s : CollectorState)
    (endpoint method : String) (status_code : ℤ) (response_time : ℚ)
    (user_agent ip_address error_message : Option String) (now : ℚ) :
    CollectorState × List LogLine :=
  let metrics : RequestMetrics :=
    { endpoint := endpoint, method := method, status_code := status_code
      response_time := response_time, timestamp := now
      user_agent := user_agent, ip_address := ip_address
      error_message := error_message }
  let r := MetricsCollector.add_request s metrics
  let classified : List LogLine :=
    if 500 ≤ status_code then [LogLine.serverError method endpoint status_code error_message]
    else if 400 ≤ status_code then [LogLine.clientError method endpoint status_code]
    else if response_time > 10 then [LogLine.slowRequest method endpoint response_time]
    else []
  (r.1, r.2 ++ classified)

/-- Fold a sequence of request insertions over a collector state. -/
def applyRequests (s : CollectorState) (ms : List RequestMetrics) : CollectorState :=
  ms.foldl (fun st m => (MetricsCollector.add_request st m).1) s

/-! ### Aggregate-table lemmas -/

lemma lookupTable_updateTable (tbl : List (String × EndpointStats)) (k k' : String)
    (f : EndpointStats → EndpointStats) :
    lookupTable (updateTable tbl k f) k' =
      if k = k' then f (lookupTable tbl k') else lookupTable tbl k' := by
  induction tbl with
  | nil =>
    by_cases h : k = k' <;> simp [updateTable, lookupTable, h]
  | cons p rest ih =>
    by_cases hp : p.1 = k
    · by_cases hk : k = k'
      · subst hk; simp [updateTable, lookupTable, hp]
      · have hpk : ¬ p.1 = k' := by rw [hp]; exact hk
        simp [updateTable, lookupTable, hp, hpk, hk]
    · by_cases hpk : p.1 = k'
      · have hk : ¬ k = k' := fun h => hp (hpk.trans h.symm)
        have hk2 : ¬ k' = k := fun h => hk h.symm
        simp [updateTable, lookupTable, hp, hpk, hk, hk2]
      · simp [updateTable, lookupTable, hp, hpk, ih]

lemma applyRequests_cons (s : CollectorState) (m : RequestMetrics)
    (ms : List RequestMetrics) :
    applyRequests s (m :: ms) = applyRequests (MetricsCollector.add_request s m).1 ms := rfl

lemma endpoint_stats_add_request (s : CollectorState) (m : RequestMetrics) :
    (MetricsCollector.add_request s m).1.endpoint_stats =
      updateTable s.endpoint_stats (endpointKey m.method m.endpoint) (bumpStats m) := rfl

lemma lookupTable_applyRequests (ms : List RequestMetrics) :
    ∀ (s : CollectorState) (k : String),
    lookupTable (applyRequests s ms).endpoint_stats k =
      (ms.filter (fun m => endpointKey m.method m.endpoint == k)).foldl
        (fun st m => bumpStats m st) (lookupTable s.endpoint_stats k) := by
  induction ms with
  | nil => intro s k; simp [applyRequests]
  | cons m ms ih =>
    intro s k
    rw [applyRequests_cons, ih, endpoint_stats_add_request, lookupTable_updateTable,
      List.filter_cons]
    by_cases h : endpointKey m.method m.endpoint = k
    · simp [h]
    · simp [h]

lemma count_foldl_bump (l : List RequestMetrics) :
    ∀ st : EndpointStats,
    (l.foldl (fun st m => bumpStats m st) st).count = st.count + l.length := by
  induction l with
  | nil => intro st; simp
  | cons m l ih =>
    intro st
    rw [List.foldl_cons, ih]
    simp only [bumpStats, List.length_cons]
    omega

lemma errors_foldl_bump (l : List RequestMetrics) :
    ∀ st : EndpointStats,
    (l.foldl (fun st m => bumpStats m st) st).errors =
      st.errors + l.countP (fun m => decide (400 ≤ m.status_code)) := by
  induction l with
  | nil => intro st; simp
  | cons m l ih =>
    intro st
    rw [List.foldl_cons, ih, List.countP_cons]
    by_cases h : 400 ≤ m.status_code
    · simp [bumpStats, h]
      omega
    · simp [bumpStats, h]

lemma total_time_foldl_bump (l : List RequestMetrics) :
    ∀ st : EndpointStats,
    (l.foldl (fun st m => bumpStats m st) st).total_time =
      st.total_time + (l.map (fun m => m.response_time)).sum := by
  induction l with
  | nil => intro st; simp
  | cons m l ih =>
    intro st
    rw [List.foldl_cons, ih]
    simp only [bumpStats, List.map_cons, List.sum_cons]
    ring

lemma endpoint_stats_applyRequests (ms : List RequestMetrics) :
    ∀ s : CollectorState,
    (applyRequests s ms).endpoint_stats =
      ms.foldl (fun t m => updateTable t (endpointKey m.method m.endpoint) (bumpStats m))
        s.endpoint_stats := by
  induction ms with
  | nil => intro s; simp [applyRequests]
  | cons m ms ih => intro s; rw [applyRequests_cons, ih]; rfl

lemma mem_keys_updateTable (tbl : List (String × EndpointStats)) (k : String)
    (f : EndpointStats → EndpointStats) (x : String) :
    x ∈ (updateTable tbl k f).map Prod.fst → x ∈ tbl.map Prod.fst ∨ x = k := by
  induction tbl with
  | nil => simp [updateTable]
  | cons p rest ih =>
    by_cases hp : p.1 = k
    · simp only [updateTable, hp, if_true, List.map_cons, List.mem_cons]
      intro hx
      rcases hx with h | h
      · exact Or.inl (Or.inl h)
      · exact Or.inl (Or.inr h)
    · simp only [updateTable, hp, if_false, List.map_cons, List.mem_cons]
      intro hx
      rcases hx with h | h
      · exact Or.inl (Or.inl h)
      · rcases ih h with h2 | h2
        · exact Or.inl (Or.inr h2)
        · exact Or.inr h2

lemma keys_nodup_updateTable (tbl : List (String × EndpointStats)) (k : String)
    (f : EndpointStats → EndpointStats) (h : (tbl.map Prod.fst).Nodup) :
    ((updateTable tbl k f).map Prod.fst).Nodup := by
  induction tbl with
  | nil => simp [updateTable]
  | cons p rest ih =>
    rw [List.map_cons, List.nodup_cons] at h
    by_cases hp : p.1 = k
    · simp only [updateTable, hp, if_true, List.map_cons, List.nodup_cons]
      exact ⟨hp ▸ h.1, h.2⟩
    · have hrest := ih h.2
      simp only [updateTable, hp, if_false, List.map_cons, List.nodup_cons]
      refine ⟨?_, hrest⟩
      intro hx
      rcases mem_keys_updateTable rest k f p.1 hx with h1 | h1
      · exact h.1 h1
      · exact hp h1

lemma lookupTable_eq_of_mem (tbl : List (String × EndpointStats))
    (p : String × EndpointStats) (hnd : (tbl.map Prod.fst).Nodup) (hp : p ∈ tbl) :
    lookupTable tbl p.1 = p.2 := by
  induction tbl with
  | nil => cases hp
  | cons q rest ih =>
    rw [List.map_cons, List.nodup_cons] at hnd
    rcases List.mem_cons.mp hp with h | h
    · subst h; simp [lookupTable]
    · have hne : ¬ q.1 = p.1 := by
        intro he
        exact hnd.1 (he ▸ List.mem_map_of_mem Prod.fst h)
      simp [lookupTable, hne, ih hnd.2 h]

lemma keys_nodup_applyRequests (ms : List RequestMetrics) :
    ∀ s : CollectorState, (s.endpoint_stats.map Prod.fst).Nodup →
    (((applyRequests s ms).endpoint_stats).map Prod.fst).Nodup := by
  induction ms with
  | nil => intro s h; exact h
  | cons m ms ih =>
    intro s h
    rw [applyRequests_cons]
    refine ih _ ?_
    rw [endpoint_stats_add_request]
    exact keys_nodup_updateTable _ _ _ h

/-! ### Bounded-buffer lemmas -/

lemma length_pushBounded {α : Type} (cap : ℕ) (buf : List α) (x : α) :
    (pushBounded cap buf x).length = min (buf.length + 1) cap := by
  simp only [pushBounded, List.length_drop, List.length_append, List.length_cons,
    List.length_nil]
  omega

lemma pushBounded_full {α : Type} (cap : ℕ) (buf : List α) (x : α)
    (hlen : buf.length = cap) (hcap : 0 < cap) :
    pushBounded cap buf x = buf.tail ++ [x] := by
  have h1 : (buf ++ [x]).length - cap = 1 := by
    simp only [List.length_append, List.length_cons, List.length_nil]
    omega
  have h2 : (1 : ℕ) ≤ buf.length := by omega
  simp only [pushBounded]
  rw [h1, List.drop_append_of_le_length h2, List.drop_one]

lemma requests_add_request (s : CollectorState) (m : RequestMetrics) :
    (MetricsCollector.add_request s m).1.requests =
      pushBounded s.max_requests s.requests m := rfl

lemma max_requests_applyRequests (ms : List RequestMetrics) :
    ∀ s : CollectorState, (applyRequests s ms).max_requests = s.max_requests := by
  induction ms with
  | nil => intro s; rfl
  | cons m ms ih => intro s; rw [applyRequests_cons, ih]; rfl

lemma length_requests_applyRequests (ms : List RequestMetrics) :
    ∀ s : CollectorState, s.requests.length ≤ s.max_requests →
    (applyRequests s ms).requests.length =
      min (s.requests.length + ms.length) s.max_requests := by
  induction ms with
  | nil =>
    intro s h
    simp only [applyRequests, List.foldl_nil, List.length_nil]
    omega
  | cons m ms ih =>
    intro s h
    rw [applyRequests_cons]
    have h1 : (MetricsCollector.add_request s m).1.requests.length =
        min (s.requests.length + 1) s.max_requests := by
      rw [requests_add_request]; exact length_pushBounded _ _ _
    have h2 : (MetricsCollector.add_request s m).1.max_requests = s.max_requests := rfl
    rw [ih _ (by rw [h1, h2]; omega), h1, h2, List.length_cons]
    omega

lemma total_requests_get_stats (s : CollectorState) (now : ℚ) :
    (MetricsCollector.get_stats s now).total_requests = s.requests.length := rfl

/-! ### Concrete sample data used by witnesses and counterexamples -/

/-- A successful request sample. -/
def wm1 : RequestMetrics :=
  { endpoint := "/api/a", method := "GET", status_code := 200,
    response_time := 1, timestamp := 0 }

/-- A server-error request sample. -/
def wm2 : RequestMetrics :=
  { endpoint := "/api/a", method := "GET", status_code := 500,
    response_time := 2, timestamp := 1 }

/-- A client-error request sample on a second endpoint. -/
def wm3 : RequestMetrics :=
  { endpoint := "/api/b", method := "POST", status_code := 404,
    response_time := 3, timestamp := 2 }

/-- Claim C1: with capacity `N`, the request buffer of a collector that has
seen any sequence of insertions holds `min (number of insertions) N`
samples, never more than `N`; `total_requests` in the stats equals that
count (the insertion count while it is at most `N`, and `N` beyond); and
an insertion into a full buffer drops exactly the oldest sample and
appends the new one (FIFO). -/
theorem c1_bounded_fifo_total_requests (cap : ℕ) (t0 now : ℚ)
    (ms : List RequestMetrics) (hcap : 0 < cap) :
    (applyRequests (initState cap t0) ms).requests.length = min ms.length cap ∧
    (applyRequests (initState cap t0) ms).requests.length ≤ cap ∧
    (MetricsCollector.get_stats (applyRequests (initState cap t0) ms) now).total_requests
      = min ms.length cap ∧
    (∀ m : RequestMetrics,
      (applyRequests (initState cap t0) ms).requests.length = cap →
      (MetricsCollector.add_request (applyRequests (initState cap t0) ms) m).1.requests
        = (applyRequests (initState cap t0) ms).requests.tail ++ [m]) := by
  have hstart : (initState cap t0).requests.length ≤ (initState cap t0).max_requests := by
    simp [initState]
  have hlen := length_requests_applyRequests ms (initState cap t0) hstart
  have hb : (initState cap t0).max_requests = cap := rfl
  have hr : (initState cap t0).requests.length = 0 := rfl
  rw [hb, hr, Nat.zero_add] at hlen
  refine ⟨hlen, by omega, ?_, ?_⟩
  · rw [total_requests_get_stats]; exact hlen
  · intro m hfull
    rw [requests_add_request]
    have hmax : (applyRequests (initState cap t0) ms).max_requests = cap := by
      rw [max_requests_applyRequests]; rfl
    rw [hmax]
    exact pushBounded_full cap _ m hfull hcap

/-- Witness for C1 at capacity 2 and three insertions: the buffer holds
`min 3 2 = 2` samples and stats report 2 total requests. -/
theorem c1_witness :
    0 < 2 ∧
    (applyRequests (initState 2 0) [wm1, wm2, wm3]).requests.length = 2 ∧
    (MetricsCollector.get_stats (applyRequests (initState 2 0) [wm1, wm2, wm3]) 5).total_requests = 2 := by
  have h := c1_bounded_fifo_total_requests 2 0 5 [wm1, wm2, wm3] (by norm_num)
  exact ⟨by norm_num, by simpa using h.1, by simpa using h.2.2.1⟩

/-- Claim C4: per-endpoint aggregates are lifetime counters over the
composite key `method ++ " " ++ endpoint`: after any insertion sequence
the aggregate `count` for a key equals the number of samples ever
inserted with that key; each insertion increments exactly its own key's
`count` by one; the aggregate table does not depend on the buffer
capacity (so it is unchanged by eviction); and an insertion increments
its key's `errors` exactly when the sample's status code is at least
400. -/
theorem c4_lifetime_endpoint_aggregates :
    (∀ (cap : ℕ) (t0 : ℚ) (ms : List RequestMetrics) (method endpoint : String),
      (lookupTable (applyRequests (initState cap t0) ms).endpoint_stats
        (endpointKey method endpoint)).count =
      (ms.filter (fun m =>
        endpointKey m.method m.endpoint == endpointKey method endpoint)).length) ∧
    (∀ (s : CollectorState) (m : RequestMetrics) (k : String),
      (lookupTable (MetricsCollector.add_request s m).1.endpoint_stats k).count =
        (lookupTable s.endpoint_stats k).count +
          (if endpointKey m.method m.endpoint = k then 1 else 0)) ∧
    (∀ (cap cap' : ℕ) (t0 : ℚ) (ms : List RequestMetrics),
      (applyRequests (initState cap t0) ms).endpoint_stats =
      (applyRequests (initState cap' t0) ms).endpoint_stats) ∧
    (∀ (s : CollectorState) (m : RequestMetrics),
      (lookupTable (MetricsCollector.add_request s m).1.endpoint_stats
        (endpointKey m.method m.endpoint)).errors =
      (lookupTable s.endpoint_stats (endpointKey m.method m.endpoint)).errors +
        (if 400 ≤ m.status_code then 1 else 0)) := by
  refine ⟨?_, ?_, ?_, ?_⟩
  · intro cap t0 ms method endpoint
    rw [lookupTable_applyRequests]
    have hinit : lookupTable (initState cap t0).endpoint_stats
        (endpointKey method endpoint) = EndpointStats.initial := rfl
    rw [hinit, count_foldl_bump]
    simp [EndpointStats.initial]
  · intro s m k
    rw [endpoint_stats_add_request, lookupTable_updateTable]
    by_cases h : endpointKey m.method m.endpoint = k <;> simp [h, bumpStats]
  · intro cap cap' t0 ms
    rw [endpoint_stats_applyRequests, endpoint_stats_applyRequests]
    rfl
  · intro s m
    rw [endpoint_stats_add_request, lookupTable_updateTable]
    by_cases h : 400 ≤ m.status_code <;> simp [bumpStats, h]

/-- Claim C10: every entry of the aggregate table satisfies
`0 ≤ errors ≤ count`, and its `total_time` is the sum of the response
times of all samples ever inserted with its key. -/
theorem c10_aggregate_invariant (cap : ℕ) (t0 : ℚ) (ms : List RequestMetrics)
    (p : String × EndpointStats)
    (hp : p ∈ (applyRequests (initState cap t0) ms).endpoint_stats) :
    p.2.errors ≤ p.2.count ∧
    p.2.total_time =
      ((ms.filter (fun m => endpointKey m.method m.endpoint == p.1)).map
        (fun m => m.response_time)).sum := by
  have hnd : (((applyRequests (initState cap t0) ms).endpoint_stats).map Prod.fst).Nodup :=
    keys_nodup_applyRequests ms _ (by simp [initState])
  have hl := lookupTable_eq_of_mem _ p hnd hp
  have hlk := lookupTable_applyRequests ms (initState cap t0) p.1
  have hinit : lookupTable (initState cap t0).endpoint_stats p.1 = EndpointStats.initial := rfl
  rw [hinit] at hlk
  have heq : p.2 = (ms.filter fun m => endpointKey m.method m.endpoint == p.1).foldl
      (fun st m => bumpStats m st) EndpointStats.initial := by rw [← hl, hlk]
  constructor
  · rw [heq, errors_foldl_bump, count_foldl_bump]
    simp only [EndpointStats.initial, Nat.zero_add]
    exact List.countP_le_length _
  · rw [heq, total_time_foldl_bump]
    simp [EndpointStats.initial]

/-- Witness for C10 at the one-insertion history `[wm1]` and the single
table entry it creates. -/
theorem c10_witness :
    (bumpStats wm1 EndpointStats.initial).errors ≤ (bumpStats wm1 EndpointStats.initial).count ∧
    (bumpStats wm1 EndpointStats.initial).total_time =
      (([wm1].filter (fun m =>
        endpointKey m.method m.endpoint == endpointKey "GET" "/api/a")).map
        (fun m => m.response_time)).sum :=
  c10_aggregate_invariant 2 0 [wm1]
    (endpointKey "GET" "/api/a", bumpStats wm1 EndpointStats.initial)
    (List.mem_singleton.mpr rfl)

/-! ### Rounding lemmas -/

lemma roundHalfEven_intCast (n : ℤ) : roundHalfEven (n : ℚ) = n := by
  simp only [roundHalfEven, Int.floor_intCast, sub_self]
  norm_num

lemma roundHalfEven_zero : roundHalfEven 0 = 0 := by
  have h := roundHalfEven_intCast 0
  simpa using h

lemma pyRound_zero (d : ℕ) : pyRound d 0 = 0 := by
  simp [pyRound, roundHalfEven_zero]

lemma pyRound_hundred : pyRound 2 100 = 100 := by
  have h : (100 : ℚ) * 10 ^ 2 = ((10000 : ℤ) : ℚ) := by norm_num
  rw [pyRound, h, roundHalfEven_intCast]
  norm_num

/-! ### Field-level readings of `get_stats` -/

lemma error_rate_percent_get_stats (s : CollectorState) (now : ℚ) :
    (MetricsCollector.get_stats s now).error_rate_percent =
      pyRound 2 ((if 0 < s.requests.length then
        ((s.requests.filter (fun r => 400 ≤ r.status_code)).length : ℚ) /
          (s.requests.length : ℚ)
        else 0) * 100) := rfl

lemma avg_response_time_ms_get_stats (s : CollectorState) (now : ℚ) :
    (MetricsCollector.get_stats s now).avg_response_time_ms =
      pyRound 2 ((if 0 < (s.requests.map (fun r => r.response_time)).length then
        (s.requests.map (fun r => r.response_time)).sum /
          ((s.requests.map (fun r => r.response_time)).length : ℚ)
        else 0) * 1000) := rfl

/-- Counterexample to claim C3 as stated: with three buffered samples of
which one has status 500, the code reports `round(100/3, 2) = 33.33`,
not `100 × 1 / 3 = 33.333...`. -/
theorem c3_counterexample :
    (MetricsCollector.get_stats (applyRequests (initState 1000 0) [wm1, wm1, wm2])
      0).error_rate_percent ≠ 100 * 1 / 3 := by
  have hreq : (applyRequests (initState 1000 0) [wm1, wm1, wm2]).requests =
      [wm1, wm1, wm2] := rfl
  rw [error_rate_percent_get_stats, hreq]
  have hfil : ([wm1, wm1, wm2].filter (fun r => 400 ≤ r.status_code)).length = 1 := by
    simp [wm1, wm2, List.filter]
  rw [hfil]
  norm_num [pyRound, roundHalfEven]

/-- Claim C3 amended: `error_rate_percent` equals
`round(100 × errors / totalRequests, 2)` (Python 2-decimal rounding) over
the current buffer; it is 0 on an empty buffer, 0 when no buffered sample
has status ≥ 400, and 100 when every buffered sample does. -/
theorem c3_error_rate_rounded (s : CollectorState) (now : ℚ) :
    (MetricsCollector.get_stats s now).error_rate_percent =
      pyRound 2 (100 * ((s.requests.filter (fun r => 400 ≤ r.status_code)).length : ℚ) /
        (s.requests.length : ℚ)) ∧
    (s.requests = [] → (MetricsCollector.get_stats s now).error_rate_percent = 0) ∧
    ((s.requests.filter (fun r => 400 ≤ r.status_code)).length = 0 →
      (MetricsCollector.get_stats s now).error_rate_percent = 0) ∧
    (0 < s.requests.length →
      (s.requests.filter (fun r => 400 ≤ r.status_code)).length = s.requests.length →
      (MetricsCollector.get_stats s now).error_rate_percent = 100) := by
  have hmain : (MetricsCollector.get_stats s now).error_rate_percent =
      pyRound 2 (100 * ((s.requests.filter (fun r => 400 ≤ r.status_code)).length : ℚ) /
        (s.requests.length : ℚ)) := by
    rw [error_rate_percent_get_stats]
    rcases Nat.eq_zero_or_pos s.requests.length with h | h
    · have he : s.requests = [] := List.length_eq_zero.mp h
      simp [he]
    · have hne : ((s.requests.length : ℚ)) ≠ 0 := by
        exact_mod_cast Nat.pos_iff_ne_zero.mp h
      rw [if_pos h]
      congr 1
      field_simp
      ring
  refine ⟨hmain, ?_, ?_, ?_⟩
  · intro he
    rw [hmain, he]
    simp [pyRound_zero]
  · intro he
    rw [hmain, he]
    simp [pyRound_zero]
  · intro hpos hall
    rw [hmain, hall]
    have hne : ((s.requests.length : ℚ)) ≠ 0 := by
      exact_mod_cast Nat.pos_iff_ne_zero.mp hpos
    rw [mul_div_assoc, div_self hne, mul_one, pyRound_hundred]

/-- Witness for C3's amended claim: one buffered sample with status 500
yields a 100% error rate. -/
theorem c3_witness :
    0 < (applyRequests (initState 1000 0) [wm2]).requests.length ∧
    ((applyRequests (initState 1000 0) [wm2]).requests.filter
      (fun r => 400 ≤ r.status_code)).length =
      (applyRequests (initState 1000 0) [wm2]).requests.length ∧
    (MetricsCollector.get_stats (applyRequests (initState 1000 0) [wm2])
      7).error_rate_percent = 100 :=
  ⟨by decide, by decide,
   (c3_error_rate_rounded (applyRequests (initState 1000 0) [wm2]) 7).2.2.2
     (by decide) (by decide)⟩

/-- A request sample whose response time makes the mean in milliseconds
non-representable in two decimals. -/
def wms : RequestMetrics :=
  { endpoint := "/api/slow", method := "GET", status_code := 200,
    response_time := 1/300, timestamp := 0 }

/-- Counterexample to claim C5 as stated: with a single buffered sample of
`elapsedSeconds = 1/300`, the code reports `round(10/3, 2) = 3.33` ms,
not `1000 × (1/300) = 10/3` ms. -/
theorem c5_counterexample :
    (MetricsCollector.get_stats (applyRequests (initState 1000 0) [wms])
      0).avg_response_time_ms ≠ 1000 * (1 / 300 : ℚ) := by
  have hreq : (applyRequests (initState 1000 0) [wms]).requests = [wms] := rfl
  rw [avg_response_time_ms_get_stats, hreq]
  norm_num [wms, pyRound, roundHalfEven]

/-- Claim C5 amended: `avg_response_time_ms` equals
`round(1000 × mean(elapsedSeconds), 2)` (Python 2-decimal rounding) over
the current buffer, and 0 on an empty buffer. -/
theorem c5_avg_response_time_rounded (s : CollectorState) (now : ℚ) :
    (MetricsCollector.get_stats s now).avg_response_time_ms =
      pyRound 2 (1000 * ((s.requests.map (fun r => r.response_time)).sum /
        (s.requests.length : ℚ))) ∧
    (s.requests = [] → (MetricsCollector.get_stats s now).avg_response_time_ms = 0) := by
  have hmain : (MetricsCollector.get_stats s now).avg_response_time_ms =
      pyRound 2 (1000 * ((s.requests.map (fun r => r.response_time)).sum /
        (s.requests.length : ℚ))) := by
    rw [avg_response_time_ms_get_stats]
    rcases Nat.eq_zero_or_pos s.requests.length with h | h
    · have he : s.requests = [] := List.length_eq_zero.mp h
      simp [he]
    · have hlen : (s.requests.map (fun r => r.response_time)).length =
        s.requests.length := List.length_map _ _
      rw [hlen, if_pos h]
      congr 1
      ring
  refine ⟨hmain, ?_⟩
  intro he
  rw [hmain, he]
  simp [pyRound_zero]

/-- Witness for C5's amended claim: the empty buffer reports 0 ms. -/
theorem c5_witness :
    (initState 1000 0).requests = [] ∧
    (MetricsCollector.get_stats (initState 1000 0) 3).avg_response_time_ms = 0 :=
  ⟨rfl, (c5_avg_response_time_rounded (initState 1000 0) 3).2 rfl⟩

/-- Number of threshold rules of §4.3 triggered on a stats snapshot
(spec-side reading used to state C2). -/
def ruleCount (st : Stats) : ℕ :=
  (if st.error_rate_percent > 10 then 1 else 0) +
  (if st.avg_response_time_ms > 5000 then 1 else 0) +
  (match st.current_system with
   | some cs =>
      (if cs.cpu_percent > 90 then 1 else 0) + (if cs.memory_percent > 90 then 1 else 0)
   | none => 0)

/-- Claim C2: `get_health_status` evaluates the four threshold rules in
order, appending one issue per triggered rule, and the verdict is
`healthy` for zero triggered rules, `degraded` for one or two, and
`unhealthy` for three or more. -/
theorem c2_classify_health_rules (s : CollectorState) (now : ℚ) :
    (MetricsCollector.get_health_status s now).issues =
      ((if (MetricsCollector.get_stats s now).error_rate_percent > 10 then
          ["High error rate: " ++
            toString (MetricsCollector.get_stats s now).error_rate_percent ++ "%"] else []) ++
       (if (MetricsCollector.get_stats s now).avg_response_time_ms > 5000 then
          ["Slow response time: " ++
            toString (MetricsCollector.get_stats s now).avg_response_time_ms ++ "ms"] else []) ++
       (match (MetricsCollector.get_stats s now).current_system with
        | some cs =>
           (if cs.cpu_percent > 90 then
             ["High CPU: " ++ toString cs.cpu_percent ++ "%"] else []) ++
           (if cs.memory_percent > 90 then
             ["High memory: " ++ toString cs.memory_percent ++ "%"] else [])
        | none => [])) ∧
    (MetricsCollector.get_health_status s now).issues.length =
      ruleCount (MetricsCollector.get_stats s now) ∧
    (MetricsCollector.get_health_status s now).status =
      (if ruleCount (MetricsCollector.get_stats s now) = 0 then HealthStatus.healthy
       else if ruleCount (MetricsCollector.get_stats s now) ≤ 2 then HealthStatus.degraded
       else HealthStatus.unhealthy) := by
  have hiss : (MetricsCollector.get_health_status s now).issues =
      ((if (MetricsCollector.get_stats s now).error_rate_percent > 10 then
          ["High error rate: " ++
            toString (MetricsCollector.get_stats s now).error_rate_percent ++ "%"] else []) ++
       (if (MetricsCollector.get_stats s now).avg_response_time_ms > 5000 then
          ["Slow response time: " ++
            toString (MetricsCollector.get_stats s now).avg_response_time_ms ++ "ms"] else []) ++
       (match (MetricsCollector.get_stats s now).current_system with
        | some cs =>
           (if cs.cpu_percent > 90 then
             ["High CPU: " ++ toString cs.cpu_percent ++ "%"] else []) ++
           (if cs.memory_percent > 90 then
             ["High memory: " ++ toString cs.memory_percent ++ "%"] else [])
        | none => [])) := rfl
  have hstat : (MetricsCollector.get_health_status s now).status =
      (if (MetricsCollector.get_health_status s now).issues = [] then HealthStatus.healthy
       else if (MetricsCollector.get_health_status s now).issues.length < 3 then
         HealthStatus.degraded
       else HealthStatus.unhealthy) := rfl
  refine ⟨hiss, ?_, ?_⟩
  · rw [hiss]
    rcases hcs : (MetricsCollector.get_stats s now).current_system with _ | cs
    · by_cases h1 : (MetricsCollector.get_stats s now).error_rate_percent > 10 <;>
        by_cases h2 : (MetricsCollector.get_stats s now).avg_response_time_ms > 5000 <;>
        simp [ruleCount, hcs, h1, h2]
    · by_cases h1 : (MetricsCollector.get_stats s now).error_rate_percent > 10 <;>
        by_cases h2 : (MetricsCollector.get_stats s now).avg_response_time_ms > 5000 <;>
        by_cases h3 : cs.cpu_percent > 90 <;>
        by_cases h4 : cs.memory_percent > 90 <;>
        simp [ruleCount, hcs, h1, h2, h3, h4]
  · rw [hstat, hiss]
    rcases hcs : (MetricsCollector.get_stats s now).current_system with _ | cs
    · by_cases h1 : (MetricsCollector.get_stats s now).error_rate_percent > 10 <;>
        by_cases h2 : (MetricsCollector.get_stats s now).avg_response_time_ms > 5000 <;>
        simp [ruleCount, hcs, h1, h2]
    · by_cases h1 : (MetricsCollector.get_stats s now).error_rate_percent > 10 <;>
        by_cases h2 : (MetricsCollector.get_stats s now).avg_response_time_ms > 5000 <;>
        by_cases h3 : cs.cpu_percent > 90 <;>
        by_cases h4 : cs.memory_percent > 90 <;>
        simp [ruleCount, hcs, h1, h2, h3, h4]

/-- Claim C6: health classification is a total function of the state; on
a freshly constructed collector it returns status `healthy` with no
issues and a 0% error rate, and on every state it returns one of the
three verdicts. -/
theorem c6_classify_health_total (cap : ℕ) (t0 now : ℚ) :
    (MetricsCollector.get_health_status (initState cap t0) now).status =
      HealthStatus.healthy ∧
    (MetricsCollector.get_health_status (initState cap t0) now).issues = [] ∧
    (MetricsCollector.get_stats (initState cap t0) now).error_rate_percent = 0 ∧
    (MetricsCollector.get_stats (initState cap t0) now).total_requests = 0 ∧
    (∀ (s : CollectorState) (t : ℚ),
      (MetricsCollector.get_health_status s t).status = HealthStatus.healthy ∨
      (MetricsCollector.get_health_status s t).status = HealthStatus.degraded ∨
      (MetricsCollector.get_health_status s t).status = HealthStatus.unhealthy) := by
  have h1 : (MetricsCollector.get_stats (initState cap t0) now).error_rate_percent = 0 := by
    rw [error_rate_percent_get_stats]
    simp [initState, pyRound_zero]
  have h2 : (MetricsCollector.get_stats (initState cap t0) now).avg_response_time_ms = 0 := by
    rw [avg_response_time_ms_get_stats]
    simp [initState, pyRound_zero]
  have h3 : (MetricsCollector.get_stats (initState cap t0) now).current_system = none := rfl
  have hissnil : (MetricsCollector.get_health_status (initState cap t0) now).issues = [] := by
    rw [(c2_classify_health_rules (initState cap t0) now).1, h1, h2, h3]
    norm_num
  have hstat : (MetricsCollector.get_health_status (initState cap t0) now).status =
      (if (MetricsCollector.get_health_status (initState cap t0) now).issues = [] then
        HealthStatus.healthy
       else if (MetricsCollector.get_health_status (initState cap t0) now).issues.length < 3 then
         HealthStatus.degraded
       else HealthStatus.unhealthy) := rfl
  refine ⟨?_, hissnil, h1, rfl, ?_⟩
  · rw [hstat, hissnil]
    simp
  · intro s t
    cases h : (MetricsCollector.get_health_status s t).status <;> simp

/-- Claim C7: `log_request` always emits exactly one informational line
carrying method, endpoint, status code and response time, and at most
one classification-tagged line chosen by precedence: status ≥ 500 a
server-error line including the error message, else status ≥ 400 a
client-error line, else response time > 10 a slow-request line, else
none. -/
theorem c7_log_request_classification (s : CollectorState) (endpoint method : String)
    (status_code : ℤ) (response_time : ℚ)
    (user_agent ip_address error_message : Option String) (now : ℚ) :
    (RequestLogger.log_request s endpoint method status_code response_time
      user_agent ip_address error_message now).2 =
      LogLine.requestInfo method endpoint status_code response_time ::
        (if 500 ≤ status_code then
          [LogLine.serverError method endpoint status_code error_message]
         else if 400 ≤ status_code then
          [LogLine.clientError method endpoint status_code]
         else if response_time > 10 then
          [LogLine.slowRequest method endpoint response_time]
         else []) ∧
    ((RequestLogger.log_request s endpoint method status_code response_time
      user_agent ip_address error_message now).2.countP (fun l => l.isInfo)) = 1 ∧
    ((RequestLogger.log_request s endpoint method status_code response_time
      user_agent ip_address error_message now).2.countP (fun l => l.isClassified)) ≤ 1 := by
  have hmain : (RequestLogger.log_request s endpoint method status_code response_time
      user_agent ip_address error_message now).2 =
      LogLine.requestInfo method endpoint status_code response_time ::
        (if 500 ≤ status_code then
          [LogLine.serverError method endpoint status_code error_message]
         else if 400 ≤ status_code then
          [LogLine.clientError method endpoint status_code]
         else if response_time > 10 then
          [LogLine.slowRequest method endpoint response_time]
         else []) := rfl
  refine ⟨hmain, ?_, ?_⟩ <;> rw [hmain] <;>
    by_cases h5 : 500 ≤ status_code <;>
    by_cases h4 : 400 ≤ status_code <;>
    by_cases hs : response_time > 10 <;>
    simp [h5, h4, hs, LogLine.isInfo, LogLine.isClassified]

/-- Counterexample to claim C8 as stated: with one buffered sample, two
`get_stats` calls 600 seconds apart differ in `uptime_seconds` (0 vs
600), not only in the timestamp field. -/
theorem c8_counterexample :
    ¬ ((MetricsCollector.get_stats (applyRequests (initState 1000 0) [wm1])
        0).uptime_seconds =
       (MetricsCollector.get_stats (applyRequests (initState 1000 0) [wm1])
        600).uptime_seconds) := by
  show ¬ (ratTrunc ((0 : ℚ) - 0) = ratTrunc ((600 : ℚ) - 0))
  norm_num [ratTrunc]

/-- Claim C8 amended: two `get_stats` calls on the same collector state
agree on every field that does not depend on the query time —
`total_requests`, `error_rate_percent`, `avg_response_time_ms`,
`current_system` and `endpoints` — while the time-derived fields
(`timestamp`, the uptime fields and `recent_requests_5min`) may
differ. -/
theorem c8_stats_fields_time_invariant (s : CollectorState) (t1 t2 : ℚ) :
    (MetricsCollector.get_stats s t1).total_requests =
      (MetricsCollector.get_stats s t2).total_requests ∧
    (MetricsCollector.get_stats s t1).error_rate_percent =
      (MetricsCollector.get_stats s t2).error_rate_percent ∧
    (MetricsCollector.get_stats s t1).avg_response_time_ms =
      (MetricsCollector.get_stats s t2).avg_response_time_ms ∧
    (MetricsCollector.get_stats s t1).current_system =
      (MetricsCollector.get_stats s t2).current_system ∧
    (MetricsCollector.get_stats s t1).endpoints =
      (MetricsCollector.get_stats s t2).endpoints :=
  ⟨rfl, rfl, rfl, rfl, rfl⟩

/-- Claim C9: `get_stats` and `get_health_status` are pure reads — with
their (absent) state effect made explicit, the request buffer, the
snapshot buffer, the aggregate table and the start time are returned
unchanged. -/
theorem c9_queries_pure (s : CollectorState) (now : ℚ) :
    (MetricsCollector.get_stats_effect s now).2.requests = s.requests ∧
    (MetricsCollector.get_stats_effect s now).2.system_metrics = s.system_metrics ∧
    (MetricsCollector.get_stats_effect s now).2.endpoint_stats = s.endpoint_stats ∧
    (MetricsCollector.get_stats_effect s now).2.start_time = s.start_time ∧
    (MetricsCollector.get_health_status_effect s now).2.requests = s.requests ∧
    (MetricsCollector.get_health_status_effect s now).2.system_metrics = s.system_metrics ∧
    (MetricsCollector.get_health_status_effect s now).2.endpoint_stats = s.endpoint_stats ∧
    (MetricsCollector.get_health_status_effect s now).2.start_time = s.start_time :=
  ⟨rfl, rfl, rfl, rfl, rfl, rfl, rfl, rfl⟩
